import Mathlib

/-!
Shallow embedding of `src/bot.py` (OnyxS/budget-bot).

The program is a Telegram bot that caches three spreadsheet totals and lets
an administrator manage an allow-list of user identities.  We embed:

* the interface texts of `Config.TEXTS` (string constants),
* the value cache `cell_cache` with `init_cache` / `update_cache`,
* the access store (`load_users` / `save_users` / `check_access`),
* the conversation handlers (`add_user`, `remove_user`,
  `handle_user_id_input`, `process_user_id`, `cancel`, `handle_buttons`,
  `start`, `get_result`),
* the handler registration order of `main` as a dispatch function with the
  semantics of python-telegram-bot: within one handler group the first
  matching handler processes an update; a `ConversationHandler` tracks a
  per-chat state that is updated from the callback's return value, and a
  callback that raises leaves that tracked state unchanged.

External collaborators (the chat transport, the spreadsheet client and the
file system) are modelled as injected capabilities: the spreadsheet reader
is a function that may return a value or raise, the durable store is the
current file contents (`Option AccessList`, `none` for a missing or
unreadable file) together with a flag saying whether a write succeeds, and
outbound messages are collected in a list.
-/

namespace BudgetBot

/-! ### Interface texts (`Config.TEXTS`) -/

def start_message : String := "Нажмите кнопку:"

def main_button : String := "📊 Получить итог"

def add_button : String := "➕ Добавить пользователя"

def remove_button : String := "➖ Удалить пользователя"

def na_value : String := "Н/Д"

def admin_only_text : String := "🚫 Только для администратора!"

def add_user_message : String := "Введите ID пользователя:"

def remove_user_message : String := "Введите ID пользователя:"

def invalid_id_text : String := "❌ Неверный формат ID. Введите целое число:"

def cancel_message : String := "🚫 Операция отменена"

/-- `Config.TEXTS["access_denied"].format(user_id=user_id)`. -/
def access_denied_text (user_id : Int) : String :=
  "🚫 Доступ запрещен! Ваш ID: " ++ toString user_id

/-! ### Metric keys and sheet configuration (`Config.SHEET_CONFIG`) -/

inductive MetricKey
  | income
  | consumption
  | cash
deriving DecidableEq

structure SheetConfig where
  sheet_name : String
  search_phrase : String
  title : String

def SHEET_CONFIG : MetricKey → SheetConfig
  | MetricKey.income => ⟨"Лист1", "Всего доходы", "доходы"⟩
  | MetricKey.consumption => ⟨"Лист2", "Всего расходы", "расходы"⟩
  | MetricKey.cash => ⟨"Лист3", "Всего в кассе", "в кассе"⟩

/-- Iteration order of `Config.SHEET_CONFIG` (a Python dict iterates in
insertion order), used by both `init_cache` and `update_cache`. -/
def keyOrder : List MetricKey :=
  [MetricKey.income, MetricKey.consumption, MetricKey.cash]

/-! ### The value cache (`cell_cache`) -/

/-- One entry of `cell_cache`: `{"sheet": ..., "pos": ..., "value": ...}`.
A worksheet handle is opaque; we model it by a numeric identifier.  A cell
position is `(row, col)`.  A cell's value as returned by the spreadsheet
client is a string, or `none` for an empty cell, hence
`value : Option String`. -/
structure CacheEntry where
  sheet : Option Nat
  pos : Option (Nat × Nat)
  value : Option String
deriving DecidableEq

/-- `cell_cache` at process start: every field `None`. -/
def initial_cell_cache : MetricKey → CacheEntry :=
  fun _ => ⟨none, none, none⟩

/-- Capability `sheet.cell(row, col).value`: read the value at a position on
a worksheet; may raise (modelled by `Except.error ()`).  An empty cell
yields `Except.ok none`. -/
abbrev CellReader := Nat → Nat × Nat → Except Unit (Option String)

/-- One iteration of the `for` loop of `update_cache`, for key `k`:
if `cell_cache[key]["pos"] and cell_cache[key]["sheet"]` (both set; a
`(row, col)` tuple and a worksheet object are always truthy), read the
cell and overwrite `value`; an exception while reading propagates out of
the loop (result `none`).  If the key is unresolved the entry is skipped. -/
def refresh_step (read : CellReader) (cache : MetricKey → CacheEntry)
    (k : MetricKey) : Option (MetricKey → CacheEntry) :=
  match (cache k).pos, (cache k).sheet with
  | some p, some s =>
      match read s p with
      | Except.ok v =>
          some (fun k2 => if k2 = k then { cache k2 with value := v } else cache k2)
      | Except.error _ => none
  | _, _ => some cache

/-- The `for key in Config.SHEET_CONFIG` loop of `update_cache`.  The
single `try` of the source wraps the whole loop, so the first raising read
aborts the remaining iterations; the exception is then caught and logged,
leaving the cache as it was at the moment of the failure. -/
def update_cache_go (read : CellReader) :
    List MetricKey → (MetricKey → CacheEntry) → (MetricKey → CacheEntry)
  | [], cache => cache
  | k :: rest, cache =>
      match refresh_step read cache k with
      | some cache2 => update_cache_go read rest cache2
      | none => cache

/-- `update_cache`: one refresh cycle over all keys. -/
def update_cache (read : CellReader) (cache : MetricKey → CacheEntry) :
    MetricKey → CacheEntry :=
  update_cache_go read keyOrder cache

/-- A sequence of refresh cycles (the recurring job of `setup_job_queue`),
one injected reader per cycle. -/
def refreshSeq (reads : List CellReader) (cache : MetricKey → CacheEntry) :
    MetricKey → CacheEntry :=
  reads.foldl (fun c r => update_cache r c) cache

/-- Capability `spreadsheet.worksheet(name)`: may raise. -/
abbrev WorksheetFinder := String → Except Unit Nat

/-- Capability `sheet.find(phrase, ...)`: returns the `(row, col)` of the
cell containing the phrase, or raises (`CellNotFound` or otherwise). -/
abbrev CellFinder := Nat → String → Except Unit (Nat × Nat)

/-- One iteration of the `for` loop of `init_cache`, for key `k`.  The
per-key `try` catches every exception, so a failure leaves the entry
untouched.  On success the entry's `sheet`, `pos` and `value` are all set
in one `dict.update` call, with `pos = (cell.row, cell.col + 1)` and the
value read at that shifted position. -/
def init_one (ws : WorksheetFinder) (find : CellFinder) (read : CellReader)
    (cache : MetricKey → CacheEntry) (k : MetricKey) : MetricKey → CacheEntry :=
  match (do
      let s ← ws (SHEET_CONFIG k).sheet_name
      let c ← find s (SHEET_CONFIG k).search_phrase
      let v ← read s (c.1, c.2 + 1)
      pure (s, (c.1, c.2 + 1), v) : Except Unit (Nat × (Nat × Nat) × Option String)) with
  | Except.ok r =>
      fun k2 => if k2 = k then ⟨some r.1, some r.2.1, r.2.2⟩ else cache k2
  | Except.error _ => cache

/-- `init_cache`: run once at startup (`post_init`).  `sheets_ok` models
whether `initialize_google_sheets()` succeeds; on failure the outer
`except` catches and no entry is touched. -/
def init_cache (sheets_ok : Bool) (ws : WorksheetFinder) (find : CellFinder)
    (read : CellReader) (cache : MetricKey → CacheEntry) : MetricKey → CacheEntry :=
  if sheets_ok then keyOrder.foldl (init_one ws find read) cache else cache

/-- Python `value or default` for an optional string: `None` and the empty
string are falsy. -/
def orPy (v : Option String) (default : String) : String :=
  match v with
  | none => default
  | some s => if s == "" then default else s

/-- The value reported for key `k` by `get_result`:
`cell_cache[key].get("value", na)` (the `"value"` key always exists, so
this is the stored optional value) passed through `value or na`. -/
def displayValue (cache : MetricKey → CacheEntry) (k : MetricKey) : String :=
  orPy (cache k).value na_value

/-- One line of the `get_result` reply:
`Config.TEXTS["response_template"].format(title=..., value=...)`. -/
def result_line (cache : MetricKey → CacheEntry) (k : MetricKey) : String :=
  "Всего " ++ (SHEET_CONFIG k).title ++ ": " ++ displayValue cache k

/-! ### Access store (`load_users` / `save_users` / `check_access`) -/

/-- Contents of the allow-list file (`allowed_users.json`). -/
structure AccessList where
  admin_id : Int
  allowed_users : List Int
deriving DecidableEq

/-- Environment-derived configuration: `Config.ADMIN_ID`. -/
structure Env where
  ADMIN_ID : Int

/-- `load_users`: the durable store is the current file contents; `none`
stands for a missing or unreadable file, in which case the default
`{"admin_id": Config.ADMIN_ID, "allowed_users": []}` is returned (both the
`not exists` early return and the `except` fallback of the source). -/
def load_users (env : Env) : Option AccessList → AccessList
  | none => ⟨env.ADMIN_ID, []⟩
  | some d => d

/-- `save_users`: writes `data` to the file.  Any exception during the
write is caught and logged *inside* `save_users`; the caller can never
observe a failure.  `save_ok` models whether the write succeeds; on
failure the file keeps its previous contents. -/
def save_users (save_ok : Bool) (file : Option AccessList) (data : AccessList) :
    Option AccessList :=
  if save_ok then some data else file

/-- `check_access`: loads the users afresh on every call (the loaded
contents are the argument `user_data`) and denies exactly when the caller
is neither the admin nor in the allowed list. -/
def check_access (user_data : AccessList) (user_id : Int) : Bool :=
  if user_id != user_data.admin_id && !(user_data.allowed_users.contains user_id) then
    false
  else
    true

/-! ### Python `int(...)` on a string

`handle_user_id_input` does `int(update.message.text)`.  We model the
CPython decimal-string conversion on ASCII input: surrounding whitespace
is stripped, an optional single sign is allowed, and then a nonempty digit
run in which single underscores may appear between digits.  Anything else
raises `ValueError` (modelled by `none`). -/

def pyIsSpace (c : Char) : Bool :=
  c == ' ' || c == '\t' || c == '\n' || c == '\r' || c == '\x0b' || c == '\x0c'

/-- What may follow the first digit: digits, with single underscores
allowed only between digits. -/
def pyDigitTail : List Char → Bool
  | [] => true
  | '_' :: c :: rest => c.isDigit && pyDigitTail rest
  | ['_'] => false
  | c :: rest => c.isDigit && pyDigitTail rest

def digitsToNat (l : List Char) : Nat :=
  l.foldl (fun a c => a * 10 + (c.toNat - 48)) 0

def pyToInt (s : String) : Option Int :=
  let cs := ((s.data.dropWhile pyIsSpace).reverse.dropWhile pyIsSpace).reverse
  let signAndDigits : Int × List Char :=
    match cs with
    | '+' :: rest => (1, rest)
    | '-' :: rest => (-1, rest)
    | _ => (1, cs)
  match signAndDigits.2 with
  | [] => none
  | c :: rest =>
      if c.isDigit && pyDigitTail rest then
        some (signAndDigits.1 *
          (digitsToNat ((c :: rest).filter (fun x => x != '_')) : Int))
      else none

/-! ### Conversation state and handlers -/

/-- `States.AWAIT_USER_ID_ADD` / `States.AWAIT_USER_ID_REMOVE`.  The
absence of a pending action (no `"current_state"` key in
`context.chat_data`) is `Option.none` at the use sites. -/
inductive PendingAction
  | awaitAdd
  | awaitRemove
deriving DecidableEq

/-- A handler's return value as interpreted by `ConversationHandler`:
an integer state, or `ConversationHandler.END`. -/
inductive ConvRet
  | toState (s : PendingAction)
  | endConv
deriving DecidableEq

/-- Result of running one handler callback: the new
`context.chat_data["current_state"]` slot, the new file contents, the
outbound messages sent (in order), the Python return value (`none` when
the callback returns `None` or raises), and whether the callback raised an
exception. -/
structure HandlerOut where
  chat_data : Option PendingAction
  file : Option AccessList
  reply : List String
  ret : Option ConvRet
  raised : Bool
deriving DecidableEq

/-- The allow-list listing built by `add_user` / `remove_user`. -/
def users_list_text (user_data : AccessList) : String :=
  if user_data.allowed_users.isEmpty then
    "📋 Список пользователей пуст"
  else
    "📋 Текущий список пользователей:\n" ++
      String.intercalate "\n" (user_data.allowed_users.map (fun u => "▫️ " ++ toString u))

/-- `add_user`: sets `chat_data["current_state"] = AWAIT_USER_ID_ADD`,
sends the current listing plus the prompt, and returns the awaiting
state.  Note: no admin or access check happens inside this handler. -/
def add_user (env : Env) (file : Option AccessList) : HandlerOut :=
  let user_data := load_users env file
  { chat_data := some PendingAction.awaitAdd
    file := file
    reply := [users_list_text user_data ++ "\n " ++ add_user_message]
    ret := some (ConvRet.toState PendingAction.awaitAdd)
    raised := false }

/-- `remove_user`: symmetric to `add_user`. -/
def remove_user (env : Env) (file : Option AccessList) : HandlerOut :=
  let user_data := load_users env file
  { chat_data := some PendingAction.awaitRemove
    file := file
    reply := [users_list_text user_data ++ "\n " ++ remove_user_message]
    ret := some (ConvRet.toState PendingAction.awaitRemove)
    raised := false }

/-- `process_user_id`: acts on a successfully parsed identity according to
`chat_data["current_state"]`.  `list.append` adds at the end,
`list.remove` deletes the first occurrence; both branches then delete the
state key and return `ConversationHandler.END`.  With no stored state the
handler reports an unknown state and ends. -/
def process_user_id (env : Env) (save_ok : Bool) (file : Option AccessList)
    (chat : Option PendingAction) (user_id : Int) : HandlerOut :=
  let user_data := load_users env file
  match chat with
  | some PendingAction.awaitAdd =>
      if user_data.allowed_users.contains user_id then
        { chat_data := none, file := file,
          reply := ["ℹ️ Пользователь уже существует"],
          ret := some ConvRet.endConv, raised := false }
      else
        let user_data2 : AccessList :=
          { user_data with allowed_users := user_data.allowed_users ++ [user_id] }
        { chat_data := none, file := save_users save_ok file user_data2,
          reply := ["✅ Пользователь " ++ toString user_id ++ " добавлен"],
          ret := some ConvRet.endConv, raised := false }
  | some PendingAction.awaitRemove =>
      if user_data.allowed_users.contains user_id then
        let user_data2 : AccessList :=
          { user_data with allowed_users := user_data.allowed_users.erase user_id }
        { chat_data := none, file := save_users save_ok file user_data2,
          reply := ["✅ Пользователь " ++ toString user_id ++ " удален"],
          ret := some ConvRet.endConv, raised := false }
      else
        { chat_data := none, file := file,
          reply := ["ℹ️ Пользователь не найден"],
          ret := some ConvRet.endConv, raised := false }
  | none =>
      { chat_data := none, file := file,
        reply := ["⚠️ Неизвестное состояние"],
        ret := some ConvRet.endConv, raised := false }

/-- `handle_user_id_input`: parse the text as an integer; on success
delegate to `process_user_id`, on `ValueError` report the invalid format
and return `chat_data.get("current_state", ConversationHandler.END)`
without touching the stored state. -/
def handle_user_id_input (env : Env) (save_ok : Bool) (file : Option AccessList)
    (chat : Option PendingAction) (text : String) : HandlerOut :=
  match pyToInt text with
  | some user_id => process_user_id env save_ok file chat user_id
  | none =>
      { chat_data := chat, file := file, reply := [invalid_id_text],
        ret := some (match chat with
          | some s => ConvRet.toState s
          | none => ConvRet.endConv)
        raised := false }

/-- `cancel`: deletes the stored state if present, then evaluates
`update.message.reply_text(Config.TEXTS["cancel_message"], reply_markup=keyboard)`.
The name `keyboard` is bound nowhere in `cancel` and does not exist at
module scope, so evaluating the arguments raises `NameError` before the
message is sent: the acknowledgment is never delivered, the callback
raises, and `return ConversationHandler.END` is never reached. -/
def cancel (file : Option AccessList) (_chat : Option PendingAction) : HandlerOut :=
  { chat_data := none, file := file, reply := [], ret := none, raised := true }

/-- `start`: access check (which itself sends the denial) then the start
message with the keyboard. -/
def start (env : Env) (file : Option AccessList) (chat : Option PendingAction)
    (user_id : Int) : HandlerOut :=
  if check_access (load_users env file) user_id then
    { chat_data := chat, file := file, reply := [start_message],
      ret := none, raised := false }
  else
    { chat_data := chat, file := file, reply := [access_denied_text user_id],
      ret := none, raised := false }

/-- `get_result`: access check, then one reply joining the three metric
lines. -/
def get_result (env : Env) (file : Option AccessList)
    (cache : MetricKey → CacheEntry) (chat : Option PendingAction)
    (user_id : Int) : HandlerOut :=
  if check_access (load_users env file) user_id then
    { chat_data := chat, file := file,
      reply := [String.intercalate "\n" (keyOrder.map (fun k => result_line cache k))],
      ret := none, raised := false }
  else
    { chat_data := chat, file := file, reply := [access_denied_text user_id],
      ret := none, raised := false }

/-- `handle_buttons`: the admin gate for the add/remove buttons lives
here, then the text is routed to the matching handler. -/
def handle_buttons (env : Env) (file : Option AccessList)
    (cache : MetricKey → CacheEntry) (chat : Option PendingAction)
    (user_id : Int) (text : String) : HandlerOut :=
  let user_data := load_users env file
  if (text == add_button || text == remove_button) && user_id != user_data.admin_id then
    { chat_data := chat, file := file, reply := [admin_only_text],
      ret := none, raised := false }
  else if text == main_button then
    get_result env file cache chat user_id
  else if text == add_button then
    add_user env file
  else if text == remove_button then
    remove_user env file
  else
    { chat_data := chat, file := file, reply := [], ret := none, raised := false }

/-! ### Message dispatch (`main`'s handler registration)

Handlers are registered in group 0 in this order:

1. the `ConversationHandler` (entry points: a text message equal to the
   add/remove button caption; states `AWAIT_USER_ID_ADD` /
   `AWAIT_USER_ID_REMOVE`: any non-command text goes to
   `handle_user_id_input`; fallback: the `/cancel` command),
2. `handle_buttons` for any non-command text,
3. `CommandHandler("start")`,
4. a second `get_result` route (unreachable: handler 2 matches first).

python-telegram-bot gives an update to the first matching handler of the
group only.  The `ConversationHandler` keeps its own per-chat state
(`ptbState` below), updated from the callback's return value; when the
callback raises, that tracked state stays as it was. -/

/-- The mutable state shared by the dispatch loop for one chat: the
`ConversationHandler`'s tracked state, the `chat_data["current_state"]`
slot, and the allow-list file contents. -/
structure SysState where
  ptbState : Option PendingAction
  chat_data : Option PendingAction
  file : Option AccessList

/-- An inbound text message. -/
structure Msg where
  sender : Int
  text : String

/-- Fold a conversation-handler callback's outcome into the system state:
the return value moves `ptbState`, unless the callback raised. -/
def applyConv (s : SysState) (out : HandlerOut) : SysState × List String :=
  ({ ptbState :=
        if out.raised then s.ptbState
        else
          match out.ret with
          | some (ConvRet.toState st) => some st
          | some ConvRet.endConv => none
          | none => s.ptbState
     chat_data := out.chat_data
     file := out.file }, out.reply)

/-- Fold a plain handler's outcome into the system state: its return value
does not touch the conversation-handler state. -/
def applyPlain (s : SysState) (out : HandlerOut) : SysState × List String :=
  ({ ptbState := s.ptbState, chat_data := out.chat_data, file := out.file },
    out.reply)

/-- `filters.COMMAND`: a message whose text starts with `/`. -/
def is_command_text (t : String) : Bool :=
  t.data.head? == some '/'

/-- Route one inbound message the way `main`'s registration does. -/
def dispatch (env : Env) (save_ok : Bool) (cache : MetricKey → CacheEntry)
    (s : SysState) (m : Msg) : SysState × List String :=
  let is_command := is_command_text m.text
  match s.ptbState with
  | some _ =>
      if is_command then
        if m.text == "/cancel" then applyConv s (cancel s.file s.chat_data)
        else if m.text == "/start" then applyPlain s (start env s.file s.chat_data m.sender)
        else (s, [])
      else
        applyConv s (handle_user_id_input env save_ok s.file s.chat_data m.text)
  | none =>
      if is_command then
        if m.text == "/start" then applyPlain s (start env s.file s.chat_data m.sender)
        else (s, [])
      else
        if m.text == add_button then applyConv s (add_user env s.file)
        else if m.text == remove_button then applyConv s (remove_user env s.file)
        else applyPlain s (handle_buttons env s.file cache s.chat_data m.sender m.text)

/-! ### Concrete fixtures for evaluating the model -/

/-- A cache with all three keys resolved to distinct sheets. -/
def cacheABC : MetricKey → CacheEntry
  | MetricKey.income => ⟨some 1, some (1, 2), some "old1"⟩
  | MetricKey.consumption => ⟨some 2, some (1, 2), some "old2"⟩
  | MetricKey.cash => ⟨some 3, some (1, 2), some "old3"⟩

/-- A reader that raises for sheet 1 (income) and succeeds elsewhere. -/
def readFailIncome : CellReader := fun s _ =>
  if s == 1 then Except.error () else Except.ok (some "new")

/-- A reader that raises for sheet 2 (consumption) and succeeds elsewhere. -/
def readFailCons : CellReader := fun s _ =>
  if s == 2 then Except.error () else Except.ok (some "new")

/-- A reader that always returns the string `"42"`. -/
def readConst42 : CellReader := fun _ _ => Except.ok (some "42")

/-- A reader that always returns the empty string. -/
def readEmpty : CellReader := fun _ _ => Except.ok (some "")

/-- A reader that always raises. -/
def readErrAll : CellReader := fun _ _ => Except.error ()

/-- The admin sequence "trigger add, then submit the identity `n`":
`add_user` followed by `process_user_id` on the resulting state. -/
def trigger_then_submit (env : Env) (save_ok : Bool) (file : Option AccessList)
    (n : Int) : HandlerOut :=
  let t := add_user env file
  process_user_id env save_ok t.file t.chat_data n

/-! ### Lemmas about one refresh step -/

theorem mem_keyOrder (k : MetricKey) : k ∈ keyOrder := by
  cases k <;> simp [keyOrder]

theorem load_users_some (env : Env) (d : AccessList) :
    load_users env (some d) = d := rfl

theorem refresh_step_ne {read : CellReader} {cache : MetricKey → CacheEntry}
    {k : MetricKey} {c2 : MetricKey → CacheEntry}
    (h : refresh_step read cache k = some c2) {k2 : MetricKey} (hne : k2 ≠ k) :
    c2 k2 = cache k2 := by
  unfold refresh_step at h
  split at h
  · split at h
    · cases h
      simp [hne]
    · cases h
  · cases h
    rfl

theorem refresh_step_pos {read : CellReader} {cache : MetricKey → CacheEntry}
    {k : MetricKey} {c2 : MetricKey → CacheEntry}
    (h : refresh_step read cache k = some c2) (k2 : MetricKey) :
    (c2 k2).pos = (cache k2).pos ∧ (c2 k2).sheet = (cache k2).sheet := by
  unfold refresh_step at h
  split at h
  · split at h
    · cases h
      by_cases hk : k2 = k <;> simp [hk]
    · cases h
  · cases h
    exact ⟨rfl, rfl⟩

theorem refresh_step_self_ok {read : CellReader} {cache : MetricKey → CacheEntry}
    {k : MetricKey} {c2 : MetricKey → CacheEntry} {p : Nat × Nat} {s : Nat}
    {u : Option String} (h : refresh_step read cache k = some c2)
    (hp : (cache k).pos = some p) (hs : (cache k).sheet = some s)
    (hr : read s p = Except.ok u) : (c2 k).value = u := by
  unfold refresh_step at h
  rw [hp, hs] at h
  simp only [hr] at h
  cases h
  simp

theorem refresh_step_self_err {read : CellReader} {cache : MetricKey → CacheEntry}
    {k : MetricKey} {c2 : MetricKey → CacheEntry}
    (herr : ∀ s p, (cache k).sheet = some s → (cache k).pos = some p →
      read s p = Except.error ())
    (h : refresh_step read cache k = some c2) : c2 = cache := by
  unfold refresh_step at h
  split at h
  next p s hp hs =>
    rw [herr s p hs hp] at h
    cases h
  next =>
    cases h
    rfl

theorem refresh_step_total {read : CellReader} {cache : MetricKey → CacheEntry}
    (k : MetricKey)
    (hall : ∀ j pj sj, (cache j).pos = some pj → (cache j).sheet = some sj →
      ∃ w, read sj pj = Except.ok w) :
    ∃ c2, refresh_step read cache k = some c2 := by
  unfold refresh_step
  rcases hp : (cache k).pos with _ | p
  · simp
  · rcases hs : (cache k).sheet with _ | s
    · simp
    · obtain ⟨w, hw⟩ := hall k p s hp hs
      simp [hw]

/-! ### Lemmas about a whole refresh cycle -/

theorem update_cache_go_notmem {read : CellReader} :
    ∀ (l : List MetricKey) (cache : MetricKey → CacheEntry) (k : MetricKey),
      k ∉ l → update_cache_go read l cache k = cache k := by
  intro l
  induction l with
  | nil => intro cache k _; rfl
  | cons j rest ih =>
    intro cache k hk
    rw [List.mem_cons, not_or] at hk
    show (match refresh_step read cache j with
      | some cache2 => update_cache_go read rest cache2
      | none => cache) k = cache k
    rcases hc : refresh_step read cache j with _ | c2
    · rfl
    · simpa [refresh_step_ne hc hk.1] using ih c2 k hk.2

theorem update_cache_go_pos {read : CellReader} :
    ∀ (l : List MetricKey) (cache : MetricKey → CacheEntry) (k : MetricKey),
      ((update_cache_go read l cache) k).pos = (cache k).pos ∧
      ((update_cache_go read l cache) k).sheet = (cache k).sheet := by
  intro l
  induction l with
  | nil => intro cache k; exact ⟨rfl, rfl⟩
  | cons j rest ih =>
    intro cache k
    show ((match refresh_step read cache j with
      | some cache2 => update_cache_go read rest cache2
      | none => cache) k).pos = (cache k).pos ∧
      ((match refresh_step read cache j with
      | some cache2 => update_cache_go read rest cache2
      | none => cache) k).sheet = (cache k).sheet
    rcases hc : refresh_step read cache j with _ | c2
    · exact ⟨rfl, rfl⟩
    · have h1 := ih c2 k
      have h2 := refresh_step_pos hc k
      exact ⟨h1.1.trans h2.1, h1.2.trans h2.2⟩

theorem update_cache_go_value_ok {read : CellReader} :
    ∀ (l : List MetricKey) (cache : MetricKey → CacheEntry) (k : MetricKey)
      (p : Nat × Nat) (s : Nat) (u : Option String),
      l.Nodup →
      (∀ j pj sj, (cache j).pos = some pj → (cache j).sheet = some sj →
        ∃ w, read sj pj = Except.ok w) →
      k ∈ l → (cache k).pos = some p → (cache k).sheet = some s →
      read s p = Except.ok u →
      ((update_cache_go read l cache) k).value = u := by
  intro l
  induction l with
  | nil => intro cache k p s u _ _ hk; exact absurd hk (List.not_mem_nil k)
  | cons j rest ih =>
    intro cache k p s u hnd hall hk hp hs hr
    obtain ⟨c2, hc2⟩ := @refresh_step_total read cache j hall
    have hgo : update_cache_go read (j :: rest) cache = update_cache_go read rest c2 := by
      show (match refresh_step read cache j with
        | some cache2 => update_cache_go read rest cache2
        | none => cache) = _
      rw [hc2]
    rw [hgo]
    have hall2 : ∀ j2 pj sj, (c2 j2).pos = some pj → (c2 j2).sheet = some sj →
        ∃ w, read sj pj = Except.ok w := by
      intro j2 pj sj hp2 hs2
      have hpre := refresh_step_pos hc2 j2
      exact hall j2 pj sj (hpre.1 ▸ hp2) (hpre.2 ▸ hs2)
    rcases List.mem_cons.mp hk with hkj | hkr
    · subst hkj
      have hnm : k ∉ rest := (List.nodup_cons.mp hnd).1
      rw [update_cache_go_notmem rest c2 k hnm]
      exact refresh_step_self_ok hc2 hp hs hr
    · have hpre := refresh_step_pos hc2 k
      exact ih c2 k p s u (List.nodup_cons.mp hnd).2 hall2 hkr
        (hpre.1.trans hp) (hpre.2.trans hs) hr

theorem update_cache_go_value_err {read : CellReader} :
    ∀ (l : List MetricKey) (cache : MetricKey → CacheEntry) (k : MetricKey),
      (∀ s p, (cache k).sheet = some s → (cache k).pos = some p →
        read s p = Except.error ()) →
      (update_cache_go read l cache) k = cache k := by
  intro l
  induction l with
  | nil => intro cache k _; rfl
  | cons j rest ih =>
    intro cache k herr
    show (match refresh_step read cache j with
      | some cache2 => update_cache_go read rest cache2
      | none => cache) k = cache k
    rcases hc : refresh_step read cache j with _ | c2
    · rfl
    · show update_cache_go read rest c2 k = cache k
      by_cases hkj : k = j
      · subst hkj
        have hcc : c2 = cache := refresh_step_self_err herr hc
        subst hcc
        exact ih c2 k herr
      · have hck : c2 k = cache k := refresh_step_ne hc hkj
        rw [ih c2 k (by rw [hck]; exact herr), hck]

/-! ### Claim theorems -/

/-- C1: the claim says a conversation enters `AwaitingAddId` /
`AwaitingRemoveId` only for the admin.  The code violates it: the
`ConversationHandler` entry points are registered before `handle_buttons`,
so the add/remove button text from ANY sender reaches `add_user` /
`remove_user`, which perform no admin check.  Here identity 999 is neither
the admin (1) nor allowed, is denied by `check_access`, and still its
button message puts the conversation into the awaiting state (both in
`chat_data` and in the handler's tracked state). -/
theorem C1_nonadmin_can_enter_awaiting :
    check_access (load_users ⟨1⟩ (some ⟨1, []⟩)) 999 = false ∧
    (999 : Int) ≠ (load_users ⟨1⟩ (some ⟨1, []⟩)).admin_id ∧
    (dispatch ⟨1⟩ true initial_cell_cache ⟨none, none, some ⟨1, []⟩⟩
        ⟨999, add_button⟩).1.chat_data = some PendingAction.awaitAdd ∧
    (dispatch ⟨1⟩ true initial_cell_cache ⟨none, none, some ⟨1, []⟩⟩
        ⟨999, add_button⟩).1.ptbState = some PendingAction.awaitAdd ∧
    (dispatch ⟨1⟩ true initial_cell_cache ⟨none, none, some ⟨1, []⟩⟩
        ⟨999, remove_button⟩).1.chat_data = some PendingAction.awaitRemove := by
  decide

/-- C2: the claim says a failed durable save must not be reported as
success.  The code violates it: `save_users` swallows the write exception,
and `process_user_id` then sends the success message anyway.  Here the
save fails (`save_ok = false`): the file still lacks 42, yet the reply is
exactly the success message. -/
theorem C2_save_failure_reports_success :
    (process_user_id ⟨1⟩ false (some ⟨1, []⟩) (some PendingAction.awaitAdd) 42).file =
      some ⟨1, []⟩ ∧
    (process_user_id ⟨1⟩ false (some ⟨1, []⟩) (some PendingAction.awaitAdd) 42).reply =
      ["✅ Пользователь 42 добавлен"] ∧
    (process_user_id ⟨1⟩ false (some ⟨1, [7]⟩) (some PendingAction.awaitRemove) 7).file =
      some ⟨1, [7]⟩ ∧
    (process_user_id ⟨1⟩ false (some ⟨1, [7]⟩) (some PendingAction.awaitRemove) 7).reply =
      ["✅ Пользователь 7 удален"] := by
  decide

/-- C3, counterexample: the claim says refresh failures are isolated per
key.  In `cacheABC` every key is resolved and the reader succeeds for
consumption's location, yet because the read for income (the first key of
the cycle) raises, consumption and cash keep their old values in that
cycle. -/
theorem C3_counterexample :
    (cacheABC MetricKey.consumption).pos = some (1, 2) ∧
    (cacheABC MetricKey.consumption).sheet = some 2 ∧
    readFailIncome 2 (1, 2) = Except.ok (some "new") ∧
    readFailIncome 1 (1, 2) = Except.error () ∧
    ((update_cache readFailIncome cacheABC) MetricKey.consumption).value = some "old2" ∧
    ((update_cache readFailIncome cacheABC) MetricKey.cash).value = some "old3" :=
  ⟨rfl, rfl, rfl, rfl, rfl, rfl⟩

/-- C3, amended: a failing read aborts the remainder of the cycle.  Keys
refreshed before the failure keep their newly read values; the failing key
and all keys after it in the iteration order income, consumption, cash
keep their previous `value`.  The three conjuncts cover a failure at the
first, second and third key. -/
theorem C3_failure_aborts_cycle (read : CellReader) (cache : MetricKey → CacheEntry) :
    (∀ p s, (cache MetricKey.income).pos = some p →
      (cache MetricKey.income).sheet = some s →
      read s p = Except.error () →
      update_cache read cache = cache) ∧
    (∀ p1 s1 v1 p2 s2,
      (cache MetricKey.income).pos = some p1 →
      (cache MetricKey.income).sheet = some s1 →
      read s1 p1 = Except.ok v1 →
      (cache MetricKey.consumption).pos = some p2 →
      (cache MetricKey.consumption).sheet = some s2 →
      read s2 p2 = Except.error () →
      ((update_cache read cache) MetricKey.income).value = v1 ∧
      ((update_cache read cache) MetricKey.consumption).value =
        (cache MetricKey.consumption).value ∧
      ((update_cache read cache) MetricKey.cash).value = (cache MetricKey.cash).value) ∧
    (∀ p1 s1 v1 p2 s2 v2 p3 s3,
      (cache MetricKey.income).pos = some p1 →
      (cache MetricKey.income).sheet = some s1 →
      read s1 p1 = Except.ok v1 →
      (cache MetricKey.consumption).pos = some p2 →
      (cache MetricKey.consumption).sheet = some s2 →
      read s2 p2 = Except.ok v2 →
      (cache MetricKey.cash).pos = some p3 →
      (cache MetricKey.cash).sheet = some s3 →
      read s3 p3 = Except.error () →
      ((update_cache read cache) MetricKey.income).value = v1 ∧
      ((update_cache read cache) MetricKey.consumption).value = v2 ∧
      ((update_cache read cache) MetricKey.cash).value = (cache MetricKey.cash).value) := by
  refine ⟨?_, ?_, ?_⟩
  · intro p s hp hs hr
    funext k
    simp [update_cache, keyOrder, update_cache_go, refresh_step, hp, hs, hr]
  · intro p1 s1 v1 p2 s2 hp1 hs1 hr1 hp2 hs2 hr2
    refine ⟨?_, ?_, ?_⟩ <;>
      simp [update_cache, keyOrder, update_cache_go, refresh_step,
        hp1, hs1, hr1, hp2, hs2, hr2]
  · intro p1 s1 v1 p2 s2 v2 p3 s3 hp1 hs1 hr1 hp2 hs2 hr2 hp3 hs3 hr3
    refine ⟨?_, ?_, ?_⟩ <;>
      simp [update_cache, keyOrder, update_cache_go, refresh_step,
        hp1, hs1, hr1, hp2, hs2, hr2, hp3, hs3, hr3]

/-- C3, amended, instantiated: with `cacheABC` and a reader failing on
consumption's sheet, income is refreshed while consumption and cash keep
their old values. -/
theorem C3_failure_aborts_cycle_witness :
    ((update_cache readFailCons cacheABC) MetricKey.income).value = some "new" ∧
    ((update_cache readFailCons cacheABC) MetricKey.consumption).value = some "old2" ∧
    ((update_cache readFailCons cacheABC) MetricKey.cash).value = some "old3" := by
  have h := (C3_failure_aborts_cycle readFailCons cacheABC).2.1
    (1, 2) 1 (some "new") (1, 2) 2 rfl rfl rfl rfl rfl rfl
  exact ⟨h.1, h.2.1, h.2.2⟩

/-- C4: the claim says `cancel` always completes successfully, ends in
state `None` and emits the cancellation acknowledgment.  The code violates
it: `cancel` references the undefined name `keyboard`, so after deleting
`chat_data["current_state"]` it raises `NameError`; the acknowledgment is
never sent, and since the callback raises, the `ConversationHandler` keeps
its tracked awaiting state.  The store is indeed never mutated. -/
theorem C4_cancel_never_acknowledges :
    (∀ (file : Option AccessList) (chat : Option PendingAction),
      cancel file chat =
        { chat_data := none, file := file, reply := [], ret := none, raised := true }) ∧
    (∀ (env : Env) (save_ok : Bool) (cache : MetricKey → CacheEntry)
      (file : Option AccessList) (st : PendingAction) (chat : Option PendingAction)
      (uid : Int),
      dispatch env save_ok cache ⟨some st, chat, file⟩ ⟨uid, "/cancel"⟩ =
        (⟨some st, none, file⟩, [])) :=
  ⟨fun _ _ => rfl, fun _ _ _ _ _ _ _ => rfl⟩

/-- C5, counterexample: the claim says a successful refresh followed by
`get` reports exactly the string returned by the reader.  For the empty
string this fails: the refresh succeeds and stores `""`, but `get_result`
passes the value through `value or na_value`, so the placeholder is
reported instead of `""`. -/
theorem C5_counterexample :
    (cacheABC MetricKey.income).pos = some (1, 2) ∧
    (cacheABC MetricKey.income).sheet = some 1 ∧
    readEmpty 1 (1, 2) = Except.ok (some "") ∧
    ((update_cache readEmpty cacheABC) MetricKey.income).value = some "" ∧
    displayValue (update_cache readEmpty cacheABC) MetricKey.income = na_value ∧
    na_value ≠ "" :=
  ⟨rfl, rfl, rfl, rfl, rfl, by decide⟩

/-- C5, amended: in a cycle whose reads all succeed on resolved keys, a
refresh followed by `get` reports exactly the reader's value for every
resolved key whenever that value is a non-empty string (an empty or
missing value is reported as the placeholder); and if the read for a key
fails, `get` for that key reports the same value as before the cycle. -/
theorem C5_refresh_then_get :
    (∀ (read : CellReader) (cache : MetricKey → CacheEntry) (k : MetricKey)
      (p : Nat × Nat) (s : Nat) (v : String),
      (∀ j pj sj, (cache j).pos = some pj → (cache j).sheet = some sj →
        ∃ w, read sj pj = Except.ok w) →
      (cache k).pos = some p → (cache k).sheet = some s →
      read s p = Except.ok (some v) → v ≠ "" →
      displayValue (update_cache read cache) k = v) ∧
    (∀ (read : CellReader) (cache : MetricKey → CacheEntry) (k : MetricKey),
      (∀ s p, (cache k).sheet = some s → (cache k).pos = some p →
        read s p = Except.error ()) →
      displayValue (update_cache read cache) k = displayValue cache k) := by
  constructor
  · intro read cache k p s v hall hp hs hr hne
    have hval : ((update_cache read cache) k).value = some v :=
      update_cache_go_value_ok keyOrder cache k p s (some v) (by decide) hall
        (mem_keyOrder k) hp hs hr
    simp [displayValue, orPy, hval, hne]
  · intro read cache k herr
    have h := update_cache_go_value_err keyOrder cache k herr
    simp [displayValue, update_cache, h]

/-- C5, amended, instantiated: a reader returning `"42"` everywhere makes
`get` report `"42"` for income after a refresh, and an always-failing
reader leaves income's report unchanged. -/
theorem C5_refresh_then_get_witness :
    displayValue (update_cache readConst42 cacheABC) MetricKey.income = "42" ∧
    displayValue (update_cache readErrAll cacheABC) MetricKey.income =
      displayValue cacheABC MetricKey.income :=
  ⟨C5_refresh_then_get.1 readConst42 cacheABC MetricKey.income (1, 2) 1 "42"
      (fun _ _ _ _ _ => ⟨some "42", rfl⟩) rfl rfl rfl (by decide),
    C5_refresh_then_get.2 readErrAll cacheABC MetricKey.income (fun _ _ _ _ => rfl)⟩

/-- C6: `check_access` authorizes exactly the admin and the members of the
allowed list, as a function of the store contents loaded at the moment of
the call; consequently an identity that is no longer in the list (and is
not the admin) is denied on its next request. -/
theorem C6_authorization :
    (∀ (user_data : AccessList) (user_id : Int),
      check_access user_data user_id = true ↔
        (user_id = user_data.admin_id ∨ user_id ∈ user_data.allowed_users)) ∧
    (∀ (user_data : AccessList) (user_id : Int),
      user_id ≠ user_data.admin_id → user_id ∉ user_data.allowed_users →
      check_access user_data user_id = false) := by
  have hiff : ∀ (d : AccessList) (i : Int),
      check_access d i = true ↔ (i = d.admin_id ∨ i ∈ d.allowed_users) := by
    intro d i
    simp [check_access]
  refine ⟨hiff, fun d i h1 h2 => ?_⟩
  cases hc : check_access d i
  · rfl
  · rcases (hiff d i).mp hc with h | h
    · exact absurd h h1
    · exact absurd h h2

/-- C6 at concrete inputs: an allowed member is admitted, an identity that
is neither admin nor in the list is denied. -/
theorem C6_authorization_witness :
    check_access ⟨1, [2, 3]⟩ 3 = true ∧ check_access ⟨1, [2]⟩ 5 = false :=
  ⟨(C6_authorization.1 ⟨1, [2, 3]⟩ 3).mpr (Or.inr (by decide)),
    C6_authorization.2 ⟨1, [2]⟩ 5 (by decide) (by decide)⟩

theorem refreshSeq_pos :
    ∀ (reads : List CellReader) (cache : MetricKey → CacheEntry) (k : MetricKey),
      ((refreshSeq reads cache) k).pos = (cache k).pos ∧
      ((refreshSeq reads cache) k).sheet = (cache k).sheet := by
  intro reads
  induction reads with
  | nil => intro cache k; exact ⟨rfl, rfl⟩
  | cons r rs ih =>
    intro cache k
    have h1 := ih (update_cache r cache) k
    have h2 := @update_cache_go_pos r keyOrder cache k
    exact ⟨h1.1.trans h2.1, h1.2.trans h2.2⟩

/-- C7: a refresh cycle changes only `value` — every key's `pos` and
`sheet` are exactly as before the cycle; and after `init_cache` (the only
resolution step, run once at startup on the all-unset cache) any number of
refresh cycles leaves every key's location exactly as the initial
resolution set it. -/
theorem C7_location_write_once :
    (∀ (read : CellReader) (cache : MetricKey → CacheEntry) (k : MetricKey),
      ((update_cache read cache) k).pos = (cache k).pos ∧
      ((update_cache read cache) k).sheet = (cache k).sheet) ∧
    (∀ (sheets_ok : Bool) (ws : WorksheetFinder) (find : CellFinder)
      (read0 : CellReader) (reads : List CellReader) (k : MetricKey),
      ((refreshSeq reads (init_cache sheets_ok ws find read0 initial_cell_cache)) k).pos =
        ((init_cache sheets_ok ws find read0 initial_cell_cache) k).pos ∧
      ((refreshSeq reads (init_cache sheets_ok ws find read0 initial_cell_cache)) k).sheet =
        ((init_cache sheets_ok ws find read0 initial_cell_cache) k).sheet) :=
  ⟨fun _ cache k => update_cache_go_pos keyOrder cache k,
    fun _ _ _ _ reads k => refreshSeq_pos reads _ k⟩

/-- C8: while a conversation is awaiting an identity, an input that does
not parse as an integer makes the handler reply with the invalid-format
message, keep the stored state (and return it, so the tracked conversation
state also stays), and leave the store untouched. -/
theorem C8_invalid_input_keeps_state (env : Env) (save_ok : Bool)
    (file : Option AccessList) (st : PendingAction) (text : String)
    (h : pyToInt text = none) :
    handle_user_id_input env save_ok file (some st) text =
      { chat_data := some st, file := file, reply := [invalid_id_text],
        ret := some (ConvRet.toState st), raised := false } := by
  simp [handle_user_id_input, h]

/-- C8 at a concrete input: `"abc"` while awaiting an add. -/
theorem C8_invalid_input_keeps_state_witness :
    pyToInt "abc" = none ∧
    handle_user_id_input ⟨1⟩ true (some ⟨1, []⟩) (some PendingAction.awaitAdd) "abc" =
      { chat_data := some PendingAction.awaitAdd, file := some ⟨1, []⟩,
        reply := [invalid_id_text],
        ret := some (ConvRet.toState PendingAction.awaitAdd), raised := false } :=
  ⟨by decide, C8_invalid_input_keeps_state ⟨1⟩ true (some ⟨1, []⟩)
    PendingAction.awaitAdd "abc" (by decide)⟩

/-- C9: with `n` not yet allowed, triggering add and submitting `n` adds
`n` at the end of the list, persists it, clears the state and reports
success; running the identical sequence again reports "already exists" and
leaves the persisted list exactly as after the first run. -/
theorem C9_add_idempotent (env : Env) (file : Option AccessList) (n : Int)
    (h : n ∉ (load_users env file).allowed_users) :
    (add_user env file).chat_data = some PendingAction.awaitAdd ∧
    trigger_then_submit env true file n =
      { chat_data := none,
        file := some ⟨(load_users env file).admin_id,
          (load_users env file).allowed_users ++ [n]⟩,
        reply := ["✅ Пользователь " ++ toString n ++ " добавлен"],
        ret := some ConvRet.endConv, raised := false } ∧
    trigger_then_submit env true (trigger_then_submit env true file n).file n =
      { chat_data := none,
        file := (trigger_then_submit env true file n).file,
        reply := ["ℹ️ Пользователь уже существует"],
        ret := some ConvRet.endConv, raised := false } := by
  refine ⟨rfl, ?_, ?_⟩
  · simp [trigger_then_submit, add_user, process_user_id, save_users, h]
  · simp [trigger_then_submit, add_user, process_user_id, save_users, h, load_users_some]

/-- C9 at concrete inputs: admin 1, empty list, identity 42. -/
theorem C9_add_idempotent_witness :
    (add_user ⟨1⟩ (some ⟨1, []⟩)).chat_data = some PendingAction.awaitAdd ∧
    trigger_then_submit ⟨1⟩ true (some ⟨1, []⟩) 42 =
      { chat_data := none, file := some ⟨1, [42]⟩,
        reply := ["✅ Пользователь 42 добавлен"],
        ret := some ConvRet.endConv, raised := false } ∧
    trigger_then_submit ⟨1⟩ true ((trigger_then_submit ⟨1⟩ true (some ⟨1, []⟩) 42).file) 42 =
      { chat_data := none, file := (trigger_then_submit ⟨1⟩ true (some ⟨1, []⟩) 42).file,
        reply := ["ℹ️ Пользователь уже существует"],
        ret := some ConvRet.endConv, raised := false } :=
  C9_add_idempotent ⟨1⟩ (some ⟨1, []⟩) 42 (by decide)

/-- C10: an integer input arriving while no add/remove is pending
(no stored state) makes the handler reply with the unknown-state message,
end the conversation, and leave the store and its file untouched — no save
happens (the file is unchanged for either value of `save_ok`). -/
theorem C10_unknown_state_ends (env : Env) (save_ok : Bool)
    (file : Option AccessList) (text : String) (n : Int)
    (h : pyToInt text = some n) :
    handle_user_id_input env save_ok file none text =
      { chat_data := none, file := file, reply := ["⚠️ Неизвестное состояние"],
        ret := some ConvRet.endConv, raised := false } := by
  simp [handle_user_id_input, h, process_user_id]

/-- C10 at a concrete input: `"42"` with no pending action. -/
theorem C10_unknown_state_ends_witness :
    pyToInt "42" = some 42 ∧
    handle_user_id_input ⟨1⟩ false (some ⟨1, [5]⟩) none "42" =
      { chat_data := none, file := some ⟨1, [5]⟩,
        reply := ["⚠️ Неизвестное состояние"],
        ret := some ConvRet.endConv, raised := false } :=
  ⟨by decide, C10_unknown_state_ends ⟨1⟩ false (some ⟨1, [5]⟩) "42" 42 (by decide)⟩

end BudgetBot
